import Mathlib

/-!
Shallow embedding of `sales_profitability/wizard/sale_profitability_wizard.py`
(the `sales.profitability.wizard` Odoo transient model).

Money amounts (standard cost, prices, subtotals, valuation values) are embedded
as rationals `ℚ`; the Python code performs only `+`, `-`, `*`, `/` on them, so
the algebraic structure is preserved exactly.  Odoo record identifiers are
`Nat`, record sets are lists, dates are abstracted as `Nat` ordinals (only
comparisons matter to the wizard), and the fallible main computation
(`_get_profitability_data`, which raises `UserError`) becomes
`Except String _`.
-/

/-- A `stock.valuation.layer` record; only its `value` field is read. -/
structure ValuationLayer where
  value : ℚ
deriving DecidableEq, Repr

/-- A `stock.move` record: its `state` and its valuation layers. -/
structure StockMove where
  state : String
  stock_valuation_layer_ids : List ValuationLayer
deriving DecidableEq, Repr

/-- A `product.category` record. -/
structure ProductCategory where
  id : Nat
  name : String
deriving DecidableEq, Repr

/-- A `product.product` record, restricted to the fields the wizard reads. -/
structure Product where
  name : String
  default_code : Option String
  standard_price : ℚ
  type : String
  categ_id : ProductCategory
deriving DecidableEq, Repr

/-- A `sale.order.line` record, restricted to the fields the wizard reads.
`landed_cost_value` is `Option ℚ`: `none` models a record whose model does not
carry the attribute (the Python code probes with `hasattr`). -/
structure OrderLine where
  product_id : Product
  product_uom_qty : ℚ
  price_unit : ℚ
  price_subtotal : ℚ
  price_total : ℚ
  is_delivery : Bool
  landed_cost_value : Option ℚ
  move_ids : List StockMove
  product_uom : String
deriving DecidableEq, Repr

/-- A `sale.order` record, restricted to the fields the wizard reads.
`partner_name` is the customer's display name (`order.partner_id.name`),
`currency_id` the currency's display name (`order.currency_id.name`). -/
structure SaleOrder where
  id : Nat
  name : String
  partner_id : Nat
  partner_name : String
  date_order : Nat
  currency_id : String
  state : String
  company_id : Nat
  order_line : List OrderLine
deriving DecidableEq, Repr

/-- The wizard's `group_by` selection field (lines 40-45 of the source). -/
inductive GroupBy
  | order
  | customer
  | category
  | product
deriving DecidableEq, Repr

/-- The wizard's filter fields and report options. -/
structure Wizard where
  date_from : Nat
  date_to : Nat
  partner_ids : List Nat
  category_ids : List Nat
  company_id : Nat
  group_by : GroupBy
  show_details : Bool
  include_taxes : Bool
deriving DecidableEq, Repr

/-- Embeds `_get_domain_filters` composed with `search`: whether one order satisfies
the wizard's domain (state in sale/done, date within the inclusive range,
company match, and customer membership when `partner_ids` is nonempty). -/
def order_matches (w : Wizard) (o : SaleOrder) : Bool :=
  (o.state == "sale" || o.state == "done") &&
  decide (w.date_from ≤ o.date_order) &&
  decide (o.date_order ≤ w.date_to) &&
  (o.company_id == w.company_id) &&
  (w.partner_ids.isEmpty || w.partner_ids.contains o.partner_id)

/-- Embeds `_calculate_order_costs`: total cost for an order line including all
components, mirroring the source statement by statement (the running
`total_cost` accumulator, the `hasattr` probe, the emptiness guards on
`move_ids` and on each move's valuation layers). -/
def _calculate_order_costs (order_line : OrderLine) : ℚ :=
  let total_cost : ℚ := 0
  let product_cost := order_line.product_id.standard_price
  let total_cost := total_cost + product_cost * order_line.product_uom_qty
  let total_cost :=
    match order_line.landed_cost_value with
    | some v => total_cost + v
    | none => total_cost
  let total_cost :=
    if order_line.move_ids.isEmpty then total_cost
    else
      (order_line.move_ids.filter (fun m => m.state == "done")).foldl
        (fun acc m =>
          if m.stock_valuation_layer_ids.isEmpty then acc
          else acc + (m.stock_valuation_layer_ids.map ValuationLayer.value).sum)
        total_cost
  total_cost

/-- One per-line entry of the report data (`line_data` dict in the source). -/
structure LineData where
  product_name : String
  product_code : String
  category : String
  quantity : ℚ
  unit_price : ℚ
  revenue : ℚ
  cost : ℚ
  margin : ℚ
  margin_percent : ℚ
  uom : String
deriving DecidableEq, Repr

/-- The `totals` dict of one order's report data. -/
structure Totals where
  revenue : ℚ
  cost : ℚ
  margin : ℚ
  margin_percent : ℚ
deriving DecidableEq, Repr

/-- One order's entry of the report data (`order_data` dict in the source). -/
structure OrderData where
  order_id : Nat
  order_name : String
  customer : String
  customer_id : Nat
  date_order : Nat
  currency : String
  lines : List LineData
  totals : Totals
deriving DecidableEq, Repr

/-- The two `continue` conditions of the aggregator's line loop, turned into a
retention predicate: a line is kept when it is neither a delivery line nor a
service product, and, when a category filter is active, its category is in the
filter. -/
def retained_line (w : Wizard) (line : OrderLine) : Bool :=
  !(line.is_delivery || line.product_id.type == "service") &&
  !(!w.category_ids.isEmpty && !w.category_ids.contains line.product_id.categ_id.id)

/-- The body of the aggregator's line loop for a retained line: revenue from
`price_total` or `price_subtotal` according to `include_taxes`, cost from
`_calculate_order_costs`, margin, and the zero-guarded margin percent. -/
def line_result (w : Wizard) (line : OrderLine) : LineData :=
  let line_revenue := if w.include_taxes then line.price_total else line.price_subtotal
  let line_cost := _calculate_order_costs line
  let line_margin := line_revenue - line_cost
  let line_margin_percent := if line_revenue ≠ 0 then line_margin / line_revenue * 100 else 0
  { product_name := line.product_id.name
    product_code := line.product_id.default_code.getD ""
    category := line.product_id.categ_id.name
    quantity := line.product_uom_qty
    unit_price := line.price_unit
    revenue := line_revenue
    cost := line_cost
    margin := line_margin
    margin_percent := line_margin_percent
    uom := line.product_uom }

/-- The mutable state of the aggregator's line loop: the `lines` list and the
three running money totals of `order_data`. -/
structure OrderAcc where
  lines : List LineData
  revenue : ℚ
  cost : ℚ
  margin : ℚ
deriving DecidableEq, Repr

/-- One iteration of the aggregator's line loop: skip delivery/service lines,
skip lines excluded by the category filter, otherwise append the line result
and bump the running totals. -/
def order_step (w : Wizard) (acc : OrderAcc) (line : OrderLine) : OrderAcc :=
  if line.is_delivery || line.product_id.type == "service" then acc
  else if !w.category_ids.isEmpty && !w.category_ids.contains line.product_id.categ_id.id then
    acc
  else
    let ld := line_result w line
    { lines := acc.lines ++ [ld]
      revenue := acc.revenue + ld.revenue
      cost := acc.cost + ld.cost
      margin := acc.margin + ld.margin }

/-- The per-order part of `_get_profitability_data`: run the line loop, then
set the order-level margin percent (left at `0.0` unless revenue is nonzero). -/
def process_order (w : Wizard) (order : SaleOrder) : OrderData :=
  let acc := order.order_line.foldl (order_step w) ⟨[], 0, 0, 0⟩
  let margin_percent := if acc.revenue ≠ 0 then acc.margin / acc.revenue * 100 else 0
  { order_id := order.id
    order_name := order.name
    customer := order.partner_name
    customer_id := order.partner_id
    date_order := order.date_order
    currency := order.currency_id
    lines := acc.lines
    totals :=
      { revenue := acc.revenue
        cost := acc.cost
        margin := acc.margin
        margin_percent := margin_percent } }

/-- Embeds `_get_profitability_data`: filter the order store through the wizard's
domain, raise `UserError` when nothing matches, otherwise build the per-order
report data, dropping orders left with no lines after line filtering. -/
def _get_profitability_data (w : Wizard) (sale_orders : List SaleOrder) :
    Except String (List OrderData) :=
  let orders := sale_orders.filter (order_matches w)
  if orders.isEmpty then
    Except.error "No sales orders found for the selected criteria."
  else
    Except.ok ((orders.map (process_order w)).filter (fun od => !od.lines.isEmpty))

/-- One order row of the summary sheet (`action_export_excel`, columns A-H).
The margin percent cell holds `margin_percent / 100` (a fraction, for the
percentage cell format). -/
structure SummaryRow where
  order_name : String
  customer : String
  date_order : Nat
  revenue : ℚ
  cost : ℚ
  margin : ℚ
  margin_percent_cell : ℚ
  currency : String
deriving DecidableEq, Repr

/-- The TOTAL row of the summary sheet.  The margin percent cell is `Option ℚ`:
the source writes `total_margin / total_revenue` only under
`if total_revenue:`, so the cell stays unwritten (`none`) when the grand
revenue is zero. -/
structure TotalRow where
  revenue : ℚ
  cost : ℚ
  margin : ℚ
  margin_percent_cell : Option ℚ
deriving DecidableEq, Repr

/-- The summary worksheet: header row, one row per order, TOTAL row. -/
structure SummarySheet where
  headers : List String
  rows : List SummaryRow
  total : TotalRow
deriving DecidableEq, Repr

/-- One line row of the optional detail sheet (columns A-L). -/
structure DetailRow where
  order_name : String
  customer : String
  product_code : String
  product_name : String
  category : String
  quantity : ℚ
  uom : String
  unit_price : ℚ
  revenue : ℚ
  cost : ℚ
  margin : ℚ
  margin_percent_cell : ℚ
deriving DecidableEq, Repr

/-- The detail worksheet: header row plus one row per retained line. -/
structure DetailSheet where
  headers : List String
  rows : List DetailRow
deriving DecidableEq, Repr

/-- The produced workbook: summary sheet always, detail sheet when
`show_details` is set. -/
structure ExcelFile where
  summary : SummarySheet
  details : Option DetailSheet
deriving DecidableEq, Repr

/-- The mutable state of the summary-sheet loop: written rows and the three
running grand totals (`total_revenue = total_cost = total_margin = 0.0`). -/
structure SummaryAcc where
  rows : List SummaryRow
  total_revenue : ℚ
  total_cost : ℚ
  total_margin : ℚ
deriving DecidableEq, Repr

/-- The summary row written for one order (columns A-H of one data row). -/
def summary_row (od : OrderData) : SummaryRow :=
  { order_name := od.order_name
    customer := od.customer
    date_order := od.date_order
    revenue := od.totals.revenue
    cost := od.totals.cost
    margin := od.totals.margin
    margin_percent_cell := od.totals.margin_percent / 100
    currency := od.currency }

/-- One iteration of the summary-sheet loop: write the order's row and add its
totals into the grand totals. -/
def summary_step (acc : SummaryAcc) (od : OrderData) : SummaryAcc :=
  { rows := acc.rows ++ [summary_row od]
    total_revenue := acc.total_revenue + od.totals.revenue
    total_cost := acc.total_cost + od.totals.cost
    total_margin := acc.total_margin + od.totals.margin }

/-- The summary-sheet part of `action_export_excel`: headers, the order rows,
and the TOTAL row; the TOTAL margin percent cell is written (as the fraction
`total_margin / total_revenue`) only when `total_revenue` is nonzero. -/
def summary_sheet (report_data : List OrderData) : SummarySheet :=
  let acc := report_data.foldl summary_step ⟨[], 0, 0, 0⟩
  { headers := ["Order #", "Customer", "Date", "Revenue", "Cost",
                "Margin", "Margin %", "Currency"]
    rows := acc.rows
    total :=
      { revenue := acc.total_revenue
        cost := acc.total_cost
        margin := acc.total_margin
        margin_percent_cell :=
          if acc.total_revenue ≠ 0 then some (acc.total_margin / acc.total_revenue)
          else none } }

/-- The detail-sheet part of `action_export_excel`: one row per retained line
across all orders, in report order. -/
def detail_sheet (report_data : List OrderData) : DetailSheet :=
  { headers := ["Order #", "Customer", "Product Code", "Product Name",
                "Category", "Quantity", "UoM", "Unit Price",
                "Revenue", "Cost", "Margin", "Margin %"]
    rows := report_data.foldl (fun rows od =>
      od.lines.foldl (fun rows line =>
        rows ++
          [{ order_name := od.order_name
             customer := od.customer
             product_code := line.product_code
             product_name := line.product_name
             category := line.category
             quantity := line.quantity
             uom := line.uom
             unit_price := line.unit_price
             revenue := line.revenue
             cost := line.cost
             margin := line.margin
             margin_percent_cell := line.margin_percent / 100 }]) rows) [] }

/-- Embeds `action_export_excel`: run the computation and build the workbook; an
exception (here, the empty-result `UserError`) is caught and re-raised wrapped
in the "Error creating Excel file" message, and no file is produced. -/
def action_export_excel (w : Wizard) (sale_orders : List SaleOrder) :
    Except String ExcelFile :=
  match _get_profitability_data w sale_orders with
  | Except.error e => Except.error ("Error creating Excel file: " ++ e)
  | Except.ok report_data =>
      Except.ok
        { summary := summary_sheet report_data
          details := if w.show_details then some (detail_sheet report_data) else none }

/-- The on-screen report action's payload: the report data handed to the
template renderer. -/
structure ReportAction where
  report_data : List OrderData
deriving DecidableEq, Repr

/-- Embeds `action_generate_report`: run the computation and hand the report data to
the renderer; an exception is caught and re-raised wrapped in the "Error
generating report" message. -/
def action_generate_report (w : Wizard) (sale_orders : List SaleOrder) :
    Except String ReportAction :=
  match _get_profitability_data w sale_orders with
  | Except.error e => Except.error ("Error generating report: " ++ e)
  | Except.ok report_data => Except.ok { report_data := report_data }

/-- One grouped row of the on-screen presentation. -/
structure GroupedRow where
  key : String
  revenue : ℚ
  cost : ℚ
  margin : ℚ
  margin_percent : ℚ
deriving DecidableEq, Repr, Inhabited

/-- Modelled from the spec: the Presentation Formatter (spec §4.4) lives in the
report template, which is not among the source files; only the `group_by`
selection field is.  Collect each item's key once, first occurrence first. -/
def group_keys (items : List (String × ℚ × ℚ × ℚ)) : List String :=
  items.foldl (fun ks it => if ks.contains it.1 then ks else ks ++ [it.1]) []

/-- Modelled from the spec: one grouped row per distinct key, carrying
revenue/cost/margin summed over the items with that key and a recomputed
zero-guarded margin percent. -/
def group_rows (items : List (String × ℚ × ℚ × ℚ)) : List GroupedRow :=
  (group_keys items).map (fun k =>
    let ms := items.filter (fun it => it.1 == k)
    let revenue := (ms.map (fun it => it.2.1)).sum
    let cost := (ms.map (fun it => it.2.2.1)).sum
    let margin := (ms.map (fun it => it.2.2.2)).sum
    { key := k
      revenue := revenue
      cost := cost
      margin := margin
      margin_percent := if revenue ≠ 0 then margin / revenue * 100 else 0 })

/-- The order-level items fed to customer grouping: key is the customer name,
values are the order totals. -/
def customer_items (rd : List OrderData) : List (String × ℚ × ℚ × ℚ) :=
  rd.map (fun od => (od.customer, od.totals.revenue, od.totals.cost, od.totals.margin))

/-- The line-level items fed to category/product grouping: one item per
retained line across all orders, keyed by `key`. -/
def line_items (key : LineData → String) (rd : List OrderData) :
    List (String × ℚ × ℚ × ℚ) :=
  (rd.map (fun od => od.lines.map (fun l => (key l, l.revenue, l.cost, l.margin)))).flatten

/-- Modelled from the spec: the Presentation Formatter.  Grouping by order is
no grouping (one row per order, carrying the order's own totals); customer
grouping folds order totals keyed by customer; category and product grouping
fold line results keyed by the line's category resp. product. -/
def report_groups : GroupBy → List OrderData → List GroupedRow
  | GroupBy.order, rd =>
      rd.map (fun od =>
        { key := od.order_name
          revenue := od.totals.revenue
          cost := od.totals.cost
          margin := od.totals.margin
          margin_percent := od.totals.margin_percent })
  | GroupBy.customer, rd => group_rows (customer_items rd)
  | GroupBy.category, rd => group_rows (line_items LineData.category rd)
  | GroupBy.product, rd => group_rows (line_items LineData.product_name rd)

/-- What it means for a grouped row to aggregate its member items: its three
money figures are the sums over the items carrying its key, and its margin
percent is recomputed from its own figures with the zero-guard. -/
def grouped_row_sums (items : List (String × ℚ × ℚ × ℚ)) (row : GroupedRow) : Prop :=
  row.revenue = ((items.filter (fun it => it.1 == row.key)).map (fun it => it.2.1)).sum ∧
  row.cost = ((items.filter (fun it => it.1 == row.key)).map (fun it => it.2.2.1)).sum ∧
  row.margin = ((items.filter (fun it => it.1 == row.key)).map (fun it => it.2.2.2)).sum ∧
  row.margin_percent = (if row.revenue ≠ 0 then row.margin / row.revenue * 100 else 0)

/-! Concrete sample records, used to evaluate the embedded program on the
spec's worked example and on edge cases. -/

/-- A sample product category. -/
def sample_category : ProductCategory := { id := 1, name := "All" }

/-- The spec's worked-example product: standard cost 10, storable. -/
def sample_product : Product :=
  { name := "Widget"
    default_code := some "W1"
    standard_price := 10
    type := "consu"
    categ_id := sample_category }

/-- The spec's worked-example line: quantity 2, unit price 50, pre-tax
subtotal 100, tax-inclusive total 110, no landed cost, no moves. -/
def sample_line : OrderLine :=
  { product_id := sample_product
    product_uom_qty := 2
    price_unit := 50
    price_subtotal := 100
    price_total := 110
    is_delivery := false
    landed_cost_value := none
    move_ids := []
    product_uom := "Units" }

/-- A confirmed order holding the worked-example line. -/
def sample_order : SaleOrder :=
  { id := 1
    name := "S00001"
    partner_id := 7
    partner_name := "Acme"
    date_order := 10
    currency_id := "USD"
    state := "sale"
    company_id := 1
    order_line := [sample_line] }

/-- A second confirmed order of the same customer: one line of quantity 1,
standard cost 10, subtotal 200, total 220. -/
def sample_order2 : SaleOrder :=
  { id := 4
    name := "S00004"
    partner_id := 7
    partner_name := "Acme"
    date_order := 12
    currency_id := "USD"
    state := "sale"
    company_id := 1
    order_line :=
      [{ product_id := sample_product
         product_uom_qty := 1
         price_unit := 200
         price_subtotal := 200
         price_total := 220
         is_delivery := false
         landed_cost_value := none
         move_ids := []
         product_uom := "Units" }] }

/-- A wizard whose date range and company cover the sample orders, with no
customer or category restriction. -/
def sample_wizard : Wizard :=
  { date_from := 0
    date_to := 20
    partner_ids := []
    category_ids := []
    company_id := 1
    group_by := GroupBy.order
    show_details := true
    include_taxes := true }

/-- A service product (excluded from the report by the line filter). -/
def service_product : Product :=
  { name := "Support"
    default_code := none
    standard_price := 5
    type := "service"
    categ_id := sample_category }

/-- A confirmed order whose only line is a service line. -/
def service_order : SaleOrder :=
  { id := 2
    name := "S00002"
    partner_id := 7
    partner_name := "Acme"
    date_order := 11
    currency_id := "USD"
    state := "sale"
    company_id := 1
    order_line :=
      [{ product_id := service_product
         product_uom_qty := 1
         price_unit := 30
         price_subtotal := 30
         price_total := 33
         is_delivery := false
         landed_cost_value := none
         move_ids := []
         product_uom := "Hours" }] }

/-- A confirmed order whose only line is retained but has zero price and zero
cost, so the whole report's revenue is 0. -/
def free_order : SaleOrder :=
  { id := 3
    name := "S00003"
    partner_id := 7
    partner_name := "Acme"
    date_order := 12
    currency_id := "USD"
    state := "sale"
    company_id := 1
    order_line :=
      [{ product_id :=
           { name := "Freebie"
             default_code := none
             standard_price := 0
             type := "consu"
             categ_id := sample_category }
         product_uom_qty := 1
         price_unit := 0
         price_subtotal := 0
         price_total := 0
         is_delivery := false
         landed_cost_value := none
         move_ids := []
         product_uom := "Units" }] }

/-- A draft order: it fails the wizard's state filter. -/
def draft_order : SaleOrder :=
  { id := 5
    name := "S00005"
    partner_id := 7
    partner_name := "Acme"
    date_order := 10
    currency_id := "USD"
    state := "draft"
    company_id := 1
    order_line := [sample_line] }

/-- The report data computed for the worked-example order. -/
def sample_od : OrderData := process_order sample_wizard sample_order

/-- The report data computed for the second same-customer order. -/
def sample_od2 : OrderData := process_order sample_wizard sample_order2


/-! Helper lemmas about the aggregation loops. -/

/-- One line-loop iteration, written through the retention predicate: the
two skip conditions fire exactly when `retained_line` is false. -/
theorem order_step_eq (w : Wizard) (acc : OrderAcc) (line : OrderLine) :
    order_step w acc line =
      if retained_line w line then
        { lines := acc.lines ++ [line_result w line]
          revenue := acc.revenue + (line_result w line).revenue
          cost := acc.cost + (line_result w line).cost
          margin := acc.margin + (line_result w line).margin }
      else acc := by
  rcases hd : (line.is_delivery || line.product_id.type == "service") with _ | _ <;>
    rcases hc :
      (!w.category_ids.isEmpty && !w.category_ids.contains line.product_id.categ_id.id)
      with _ | _ <;>
    simp only [order_step, retained_line, hd, hc] <;> simp

/-- The line loop, fully characterized: starting from any accumulator, it
appends the results of the retained lines and adds their revenue, cost and
margin to the running totals. -/
theorem order_foldl_spec (w : Wizard) (ls : List OrderLine) (acc : OrderAcc) :
    ls.foldl (order_step w) acc =
      { lines := acc.lines ++ (ls.filter (retained_line w)).map (line_result w)
        revenue := acc.revenue +
          ((ls.filter (retained_line w)).map (fun l => (line_result w l).revenue)).sum
        cost := acc.cost +
          ((ls.filter (retained_line w)).map (fun l => (line_result w l).cost)).sum
        margin := acc.margin +
          ((ls.filter (retained_line w)).map (fun l => (line_result w l).margin)).sum } := by
  induction ls generalizing acc with
  | nil => simp
  | cons l ls ih =>
    rw [List.foldl_cons, order_step_eq]
    by_cases h : retained_line w l = true
    · rw [if_pos h, ih]
      simp [List.filter_cons, h, add_assoc]
    · rw [if_neg h, ih]
      simp [List.filter_cons, h]

/-- The lines of one order's report data are exactly the retained lines'
results, in order. -/
theorem process_order_lines (w : Wizard) (order : SaleOrder) :
    (process_order w order).lines =
      (order.order_line.filter (retained_line w)).map (line_result w) := by
  unfold process_order
  rw [order_foldl_spec]
  simp

/-- Each order total is the sum of the corresponding field over the order's
retained line results. -/
theorem process_order_totals_sum (w : Wizard) (order : SaleOrder) :
    (process_order w order).totals.revenue =
      ((process_order w order).lines.map LineData.revenue).sum ∧
    (process_order w order).totals.cost =
      ((process_order w order).lines.map LineData.cost).sum ∧
    (process_order w order).totals.margin =
      ((process_order w order).lines.map LineData.margin).sum := by
  unfold process_order
  rw [order_foldl_spec]
  simp [List.map_map, Function.comp_def]

/-- The order-level margin percent is computed from the order's own totals
with the zero-guard. -/
theorem process_order_margin_percent (w : Wizard) (order : SaleOrder) :
    (process_order w order).totals.margin_percent =
      (if (process_order w order).totals.revenue ≠ 0 then
        (process_order w order).totals.margin / (process_order w order).totals.revenue * 100
      else 0) := by
  unfold process_order
  rw [order_foldl_spec]

/-- Successful runs of `_get_profitability_data` return exactly the processed
matching orders, minus those left with no lines. -/
theorem profitability_ok_eq (w : Wizard) (sale_orders : List SaleOrder)
    (res : List OrderData)
    (h : _get_profitability_data w sale_orders = Except.ok res) :
    res = ((sale_orders.filter (order_matches w)).map (process_order w)).filter
      (fun od => !od.lines.isEmpty) := by
  unfold _get_profitability_data at h
  by_cases he : (sale_orders.filter (order_matches w)).isEmpty
  · rw [if_pos he] at h
    exact absurd h (by simp)
  · rw [if_neg he] at h
    exact (Except.ok.injEq _ _ ▸ h).symm

/-- The summary-sheet loop, fully characterized: it writes one row per order
datum and adds each order's totals into the grand totals. -/
theorem summary_foldl_spec (rd : List OrderData) (acc : SummaryAcc) :
    rd.foldl summary_step acc =
      { rows := acc.rows ++ rd.map summary_row
        total_revenue := acc.total_revenue + (rd.map (fun od => od.totals.revenue)).sum
        total_cost := acc.total_cost + (rd.map (fun od => od.totals.cost)).sum
        total_margin := acc.total_margin + (rd.map (fun od => od.totals.margin)).sum } := by
  induction rd generalizing acc with
  | nil => simp
  | cons od rd ih =>
    rw [List.foldl_cons, ih]
    simp [summary_step, add_assoc]

/-- Every row of `group_rows` aggregates its member items. -/
theorem group_rows_mem (items : List (String × ℚ × ℚ × ℚ)) (row : GroupedRow)
    (h : row ∈ group_rows items) : grouped_row_sums items row := by
  unfold group_rows at h
  rcases List.mem_map.mp h with ⟨k, _, hk⟩
  subst hk
  exact ⟨rfl, rfl, rfl, rfl⟩

/-- The valuation loop over the done moves, with its per-move emptiness guard,
adds exactly the sum of each move's valuation-layer values. -/
theorem moves_foldl (ms : List StockMove) (c : ℚ) :
    ms.foldl
      (fun acc m =>
        if m.stock_valuation_layer_ids.isEmpty then acc
        else acc + (m.stock_valuation_layer_ids.map ValuationLayer.value).sum) c =
    c + (ms.map (fun m => (m.stock_valuation_layer_ids.map ValuationLayer.value).sum)).sum := by
  induction ms generalizing c with
  | nil => simp
  | cons m ms ih =>
    rw [List.foldl_cons]
    by_cases hm : m.stock_valuation_layer_ids.isEmpty = true
    · have hnil : m.stock_valuation_layer_ids = [] := by simpa using hm
      rw [if_pos hm, ih]
      simp [hnil]
    · rw [if_neg hm, ih]
      simp [add_assoc]

/-! The claim theorems. -/

/-- C1: every line kept by the aggregator has revenue equal to the line's
tax-inclusive total when `include_taxes` is set and to the pre-tax subtotal
otherwise, cost equal to the Cost Resolver's output for that line, and margin
exactly revenue minus cost, with no rounding anywhere. -/
theorem c1_line_revenue_cost_margin (w : Wizard) (order : SaleOrder)
    (ld : LineData) (h : ld ∈ (process_order w order).lines) :
    ∃ line, line ∈ order.order_line ∧ retained_line w line = true ∧
      ld.revenue = (if w.include_taxes then line.price_total else line.price_subtotal) ∧
      ld.cost = _calculate_order_costs line ∧
      ld.margin = ld.revenue - ld.cost := by
  rw [process_order_lines] at h
  rcases List.mem_map.mp h with ⟨line, hmem, rfl⟩
  rcases List.mem_filter.mp hmem with ⟨hline, hret⟩
  exact ⟨line, hline, hret, rfl, rfl, rfl⟩

/-- Witness for C1, at the spec's worked-example order. -/
theorem c1_witness :
    ∃ line, line ∈ sample_order.order_line ∧
      retained_line sample_wizard line = true ∧
      (line_result sample_wizard sample_line).revenue =
        (if sample_wizard.include_taxes then line.price_total else line.price_subtotal) ∧
      (line_result sample_wizard sample_line).cost = _calculate_order_costs line ∧
      (line_result sample_wizard sample_line).margin =
        (line_result sample_wizard sample_line).revenue -
          (line_result sample_wizard sample_line).cost :=
  c1_line_revenue_cost_margin sample_wizard sample_order
    (line_result sample_wizard sample_line)
    (by
      rw [process_order_lines]
      simp [sample_order, sample_wizard, sample_line, sample_product,
        sample_category, retained_line])

/-- C2: the Cost Resolver returns standard cost times quantity, plus the
landed-cost value when the line carries one (zero when absent), plus the sum
over the line's done fulfillment moves of their valuation-layer values (zero
when there are no moves or none are done); each valuation value enters the sum
unmodified, so a negative value is passed through, never clamped. -/
theorem c2_cost_components (line : OrderLine) :
    _calculate_order_costs line =
      line.product_id.standard_price * line.product_uom_qty
      + line.landed_cost_value.getD 0
      + ((line.move_ids.filter (fun m => m.state == "done")).map
          (fun m => (m.stock_valuation_layer_ids.map ValuationLayer.value).sum)).sum := by
  unfold _calculate_order_costs
  rcases hl : line.landed_cost_value with _ | v <;>
    by_cases hmv : line.move_ids.isEmpty = true <;>
    have hnil := hmv <;>
    simp only [hl, hmv, if_pos, if_neg, moves_foldl] <;>
    first
      | (have hn : line.move_ids = [] := by simpa using hmv
         simp [hn])
      | simp [moves_foldl, add_assoc]

/-- C3: at both line and order level, the margin percent equals
margin/revenue×100 when revenue is nonzero and 0 when revenue is zero; the
division is reached only under the nonzero guard. -/
theorem c3_margin_percent_guard (w : Wizard) (order : SaleOrder) (line : OrderLine) :
    (line_result w line).margin_percent =
      (if (line_result w line).revenue ≠ 0 then
        (line_result w line).margin / (line_result w line).revenue * 100
      else 0) ∧
    (process_order w order).totals.margin_percent =
      (if (process_order w order).totals.revenue ≠ 0 then
        (process_order w order).totals.margin / (process_order w order).totals.revenue * 100
      else 0) :=
  ⟨rfl, process_order_margin_percent w order⟩

/-- C4: in every successfully computed report result, each order's totals
equal the sums of its retained lines' revenue, cost and margin, with no
rounding or adjustment applied. -/
theorem c4_order_totals_sum (w : Wizard) (sale_orders : List SaleOrder)
    (res : List OrderData)
    (h : _get_profitability_data w sale_orders = Except.ok res)
    (od : OrderData) (hod : od ∈ res) :
    od.totals.revenue = (od.lines.map LineData.revenue).sum ∧
    od.totals.cost = (od.lines.map LineData.cost).sum ∧
    od.totals.margin = (od.lines.map LineData.margin).sum := by
  rw [profitability_ok_eq w sale_orders res h] at hod
  rcases List.mem_filter.mp hod with ⟨hmem, _⟩
  rcases List.mem_map.mp hmem with ⟨o, _, rfl⟩
  exact process_order_totals_sum w o

/-- Witness for C4, on a run over the worked-example order alone. -/
theorem c4_witness :
    (process_order sample_wizard sample_order).totals.revenue =
      ((process_order sample_wizard sample_order).lines.map LineData.revenue).sum ∧
    (process_order sample_wizard sample_order).totals.cost =
      ((process_order sample_wizard sample_order).lines.map LineData.cost).sum ∧
    (process_order sample_wizard sample_order).totals.margin =
      ((process_order sample_wizard sample_order).lines.map LineData.margin).sum :=
  c4_order_totals_sum sample_wizard [sample_order]
    [process_order sample_wizard sample_order]
    (by
      simp [_get_profitability_data, order_matches, sample_wizard, sample_order,
        process_order_lines, retained_line, sample_line, sample_product,
        sample_category])
    (process_order sample_wizard sample_order) (by simp)

/-- C5: an order whose retained-line list is empty after line filtering does
not appear in the report result. -/
theorem c5_empty_orders_dropped (w : Wizard) (sale_orders : List SaleOrder)
    (res : List OrderData)
    (h : _get_profitability_data w sale_orders = Except.ok res)
    (order : SaleOrder)
    (hempty : order.order_line.filter (retained_line w) = []) :
    process_order w order ∉ res := by
  rw [profitability_ok_eq w sale_orders res h]
  intro hmem
  rcases List.mem_filter.mp hmem with ⟨_, hne⟩
  rw [process_order_lines, hempty] at hne
  simp at hne

/-- Witness for C5: an all-service order is absent from a run that retains
the worked-example order. -/
theorem c5_witness :
    process_order sample_wizard service_order ∉
      [process_order sample_wizard sample_order] :=
  c5_empty_orders_dropped sample_wizard [sample_order, service_order]
    [process_order sample_wizard sample_order]
    (by
      simp [_get_profitability_data, order_matches, sample_wizard, sample_order,
        service_order, process_order_lines, retained_line, sample_line,
        sample_product, sample_category, service_product])
    service_order (by decide)

/-- C6: a line is retained iff its delivery flag is unset, its product type is
not "service", and, when a category filter set is given, its category belongs
to it (with no category filter, all non-delivery non-service lines are
retained); and the aggregator keeps exactly the retained lines' results. -/
theorem c6_retention_iff (w : Wizard) (order : SaleOrder) (line : OrderLine) :
    (retained_line w line = true ↔
      (line.is_delivery = false ∧ line.product_id.type ≠ "service" ∧
        (w.category_ids = [] ∨ line.product_id.categ_id.id ∈ w.category_ids))) ∧
    (process_order w order).lines =
      (order.order_line.filter (retained_line w)).map (line_result w) := by
  refine ⟨?_, process_order_lines w order⟩
  unfold retained_line
  simp only [Bool.and_eq_true, Bool.not_eq_true', Bool.or_eq_false_iff,
    Bool.not_eq_false', Bool.and_eq_false_iff, beq_eq_false_iff_ne, beq_iff_eq]
  constructor
  · rintro ⟨⟨hd, hs⟩, hc⟩
    refine ⟨hd, hs, ?_⟩
    rcases hc with hc | hc
    · left
      simpa using hc
    · right
      simpa using hc
  · rintro ⟨hd, hs, hc⟩
    refine ⟨⟨hd, hs⟩, ?_⟩
    rcases hc with hc | hc
    · left
      simpa using hc
    · right
      simpa using hc

/-- Witness for C6: the worked-example line is retained. -/
theorem c6_witness : retained_line sample_wizard sample_line = true :=
  (c6_retention_iff sample_wizard sample_order sample_line).1.mpr (by decide)

/-- C7: when no orders match the filter domain, the computation fails with the
"no matching data" `UserError`, and both the report and the export actions
surface it wrapped in a descriptive message, producing no report data and no
file. -/
theorem c7_no_match_error (w : Wizard) (sale_orders : List SaleOrder)
    (h : sale_orders.filter (order_matches w) = []) :
    _get_profitability_data w sale_orders =
      Except.error "No sales orders found for the selected criteria." ∧
    action_generate_report w sale_orders =
      Except.error
        "Error generating report: No sales orders found for the selected criteria." ∧
    action_export_excel w sale_orders =
      Except.error
        "Error creating Excel file: No sales orders found for the selected criteria." := by
  have hp : _get_profitability_data w sale_orders =
      Except.error "No sales orders found for the selected criteria." := by
    unfold _get_profitability_data
    rw [h]
    simp
  refine ⟨hp, ?_, ?_⟩ <;> simp [action_generate_report, action_export_excel, hp]

/-- Witness for C7: a run whose only order is still a draft. -/
theorem c7_witness :
    _get_profitability_data sample_wizard [draft_order] =
      Except.error "No sales orders found for the selected criteria." ∧
    action_generate_report sample_wizard [draft_order] =
      Except.error
        "Error generating report: No sales orders found for the selected criteria." ∧
    action_export_excel sample_wizard [draft_order] =
      Except.error
        "Error creating Excel file: No sales orders found for the selected criteria." :=
  c7_no_match_error sample_wizard [draft_order] (by decide)

/-- C8 (amended): the TOTAL row's revenue, cost and margin equal the sums of
the corresponding columns over all order rows; its margin percent cell is
written as the fraction margin/revenue when the grand revenue is nonzero, and
is left unwritten when the grand revenue is zero. -/
theorem c8_total_row (report_data : List OrderData) :
    (summary_sheet report_data).total.revenue =
      ((summary_sheet report_data).rows.map SummaryRow.revenue).sum ∧
    (summary_sheet report_data).total.cost =
      ((summary_sheet report_data).rows.map SummaryRow.cost).sum ∧
    (summary_sheet report_data).total.margin =
      ((summary_sheet report_data).rows.map SummaryRow.margin).sum ∧
    ((summary_sheet report_data).total.revenue ≠ 0 →
      (summary_sheet report_data).total.margin_percent_cell =
        some ((summary_sheet report_data).total.margin /
          (summary_sheet report_data).total.revenue)) ∧
    ((summary_sheet report_data).total.revenue = 0 →
      (summary_sheet report_data).total.margin_percent_cell = none) := by
  unfold summary_sheet
  rw [summary_foldl_spec]
  simp only [zero_add, List.nil_append, List.map_map]
  refine ⟨?_, ?_, ?_, fun h => ?_, fun h => ?_⟩
  · simp [Function.comp_def, summary_row]
  · simp [Function.comp_def, summary_row]
  · simp [Function.comp_def, summary_row]
  · simp only at h ⊢
    rw [if_pos h]
  · simp only at h ⊢
    rw [if_neg (not_not_intro h)]

/-- Witness for C8 (amended), on a report holding the worked-example order:
its grand revenue 110 is nonzero, so the TOTAL margin percent cell is written
as margin/revenue. -/
theorem c8_witness :
    (summary_sheet [sample_od]).total.revenue ≠ 0 ∧
    (summary_sheet [sample_od]).total.margin_percent_cell =
      some ((summary_sheet [sample_od]).total.margin /
        (summary_sheet [sample_od]).total.revenue) := by
  have hne : (summary_sheet [sample_od]).total.revenue ≠ 0 := by
    simp [summary_sheet, summary_step, summary_row, sample_od, process_order,
      order_step, line_result, _calculate_order_costs, sample_order, sample_line,
      sample_wizard, sample_product, sample_category]
  exact ⟨hne, (c8_total_row [sample_od]).2.2.2.1 hne⟩

/-- Counterexample for C8 as stated: when the single retained line has zero
price the grand revenue is 0; the zero-guard used everywhere else would write
0 (as the fraction 0) into the TOTAL margin percent cell, but the export
leaves that cell unwritten. -/
theorem c8_counterexample :
    (summary_sheet [process_order sample_wizard free_order]).rows ≠ [] ∧
    (summary_sheet [process_order sample_wizard free_order]).total.revenue = 0 ∧
    (summary_sheet [process_order sample_wizard free_order]).total.margin_percent_cell
      = none ∧
    (summary_sheet [process_order sample_wizard free_order]).total.margin_percent_cell
      ≠ some 0 := by
  refine ⟨?_, ?_, ?_, ?_⟩ <;>
    simp [summary_sheet, summary_step, summary_row, process_order, order_step,
      line_result, _calculate_order_costs, free_order, sample_wizard,
      sample_category]

/-- C9: the Presentation Formatter groups by the selected dimension: by order
it emits one row per order carrying the order's totals; by customer, category
and product it emits rows whose revenue, cost and margin are summed over the
rows' member items with a zero-guarded recomputed margin percent; and customer
grouping over two orders of the same customer yields rows whose revenue is the
sum of both orders' revenue. -/
theorem c9_grouping (rd : List OrderData) (row : GroupedRow) (od1 od2 : OrderData) :
    (row ∈ report_groups GroupBy.order rd →
      ∃ od, od ∈ rd ∧ row.revenue = od.totals.revenue ∧
        row.cost = od.totals.cost ∧ row.margin = od.totals.margin ∧
        row.margin_percent = od.totals.margin_percent) ∧
    (row ∈ report_groups GroupBy.customer rd →
      grouped_row_sums (customer_items rd) row) ∧
    (row ∈ report_groups GroupBy.category rd →
      grouped_row_sums (line_items LineData.category rd) row) ∧
    (row ∈ report_groups GroupBy.product rd →
      grouped_row_sums (line_items LineData.product_name rd) row) ∧
    (od1.customer = od2.customer →
      ∀ r ∈ report_groups GroupBy.customer [od1, od2],
        r.revenue = od1.totals.revenue + od2.totals.revenue) := by
  refine ⟨?_, ?_, ?_, ?_, ?_⟩
  · intro h
    simp only [report_groups] at h
    rcases List.mem_map.mp h with ⟨od, hod, rfl⟩
    exact ⟨od, hod, rfl, rfl, rfl, rfl⟩
  · exact fun h => group_rows_mem _ row (by simpa [report_groups] using h)
  · exact fun h => group_rows_mem _ row (by simpa [report_groups] using h)
  · exact fun h => group_rows_mem _ row (by simpa [report_groups] using h)
  · intro hc r hr
    have hkeys : group_keys (customer_items [od1, od2]) = [od1.customer] := by
      simp [group_keys, customer_items, ← hc]
    simp only [report_groups, group_rows, hkeys, List.map_cons, List.map_nil,
      List.mem_singleton] at hr
    subst hr
    simp [customer_items, ← hc]

/-- Witness for C9: customer grouping over the two same-customer sample
orders produces a row adding their revenues. -/
theorem c9_witness :
    (report_groups GroupBy.customer [sample_od, sample_od2]).head!.revenue =
      sample_od.totals.revenue + sample_od2.totals.revenue := by
  have hne : report_groups GroupBy.customer [sample_od, sample_od2] ≠ [] := by
    simp [report_groups, group_rows, group_keys, customer_items,
      sample_od, sample_od2, process_order, sample_order, sample_order2,
      sample_wizard]
  exact (c9_grouping [sample_od, sample_od2]
      (report_groups GroupBy.customer [sample_od, sample_od2]).head!
      sample_od sample_od2).2.2.2.2 rfl _ (List.head!_mem_self hne)

/-- C10: when some order matches the filter but every matching order's lines
are all excluded by line filtering, no "no matching data" error is raised: the
computation returns an empty report result and the export yields a workbook
whose summary sheet has only the header row and an all-zero TOTAL row (with
the margin percent cell unwritten). -/
theorem c10_all_lines_filtered (w : Wizard) (sale_orders : List SaleOrder)
    (hne : sale_orders.filter (order_matches w) ≠ [])
    (hall : ∀ o ∈ sale_orders.filter (order_matches w),
      o.order_line.filter (retained_line w) = []) :
    _get_profitability_data w sale_orders = Except.ok [] ∧
    action_export_excel w sale_orders =
      Except.ok
        { summary :=
            { headers := ["Order #", "Customer", "Date", "Revenue", "Cost",
                          "Margin", "Margin %", "Currency"]
              rows := []
              total := { revenue := 0, cost := 0, margin := 0,
                         margin_percent_cell := none } }
          details := if w.show_details then some (detail_sheet []) else none } := by
  have hok : _get_profitability_data w sale_orders = Except.ok [] := by
    unfold _get_profitability_data
    rw [if_neg (by simpa using hne)]
    congr 1
    rw [List.filter_eq_nil_iff]
    intro od hod
    rcases List.mem_map.mp hod with ⟨o, ho, rfl⟩
    simp [process_order_lines, hall o ho]
  refine ⟨hok, ?_⟩
  simp only [action_export_excel, hok]
  rfl

/-- Witness for C10: a matching order whose only line is a service line. -/
theorem c10_witness :
    _get_profitability_data sample_wizard [service_order] = Except.ok [] ∧
    action_export_excel sample_wizard [service_order] =
      Except.ok
        { summary :=
            { headers := ["Order #", "Customer", "Date", "Revenue", "Cost",
                          "Margin", "Margin %", "Currency"]
              rows := []
              total := { revenue := 0, cost := 0, margin := 0,
                         margin_percent_cell := none } }
          details :=
            if sample_wizard.show_details then some (detail_sheet []) else none } :=
  c10_all_lines_filtered sample_wizard [service_order] (by decide) (by decide)
